import Mathlib

/-!
Verification development for the `react-native-ssh-sftp` SSH/SFTP client
(`src/sshclient`).  The class `SSHClient` is embedded shallowly: its mutable
instance fields (`_listeners`, `_counters`, `_activeStream`, `_key`) become a
`ClientState` record, each method becomes a state-passing function, and every
call the method makes into the native protocol module `RNSSHClient` is recorded
in an emitted `ProtoCall` list (in call order).  The native layer's responses
(callback error/response values) are passed in as explicit parameters, since
they are inputs to the JavaScript code being modelled.

Native event subscriptions are modelled in two parts, mirroring the source:
`listeners` is the client's own `_listeners` table (event name keyed, one slot
per name, assignment overwrites), while `emitter` is the set of subscriptions
actually live at the platform event emitter (`addListener` appends a fresh
handle; only `subscription.remove()` deletes one).
-/

/-- Terminal types accepted by `startShell` (enum `PtyType` in the source). -/
inductive PtyType where
  | vanilla
  | vt100
  | vt102
  | vt220
  | ansi
  | xterm
deriving DecidableEq

/-- Calls made into the native protocol module `RNSSHClient`, each carrying the
client key the source passes as `this._key`. -/
inductive ProtoCall where
  | startShell (key : String) (pty : PtyType)
  | closeShell (key : String)
  | connectSFTP (key : String)
  | sftpCancelUpload (key : String)
  | sftpCancelDownload (key : String)
  | disconnectSFTP (key : String)
  | disconnect (key : String)
deriving DecidableEq

/-- Platform discriminator: the source branches on `Platform.OS === 'ios'` (the
`android` constructor stands for every non-iOS platform). -/
inductive Platform where
  | ios
  | android
deriving DecidableEq

/-- Mutable per-client state of an `SSHClient` instance: `_key`, the
`_listeners` table (event name to subscription handle), the platform emitter's
live subscriptions (handle, event name), a fresh-handle counter, the
`_counters` record, and the `_activeStream` flags. -/
structure ClientState where
  key : String
  listeners : List (String × Nat)
  emitter : List (Nat × String)
  nextHandle : Nat
  uploadCount : Int
  downloadCount : Int
  shellActive : Bool
  sftpActive : Bool
deriving DecidableEq

/-- Lookup in a JavaScript-object-like string-keyed table. -/
def lookupTbl {α : Type} : List (String × α) → String → Option α
  | [], _ => none
  | p :: r, k => if p.1 = k then some p.2 else lookupTbl r k

/-- Assignment `tbl[k] = v` in a JavaScript-object-like table: overwrites the
slot for `k` if present, otherwise adds it. -/
def setTbl {α : Type} : List (String × α) → String → α → List (String × α)
  | [], k, v => [(k, v)]
  | p :: r, k, v => if p.1 = k then (k, v) :: r else p :: setTbl r k v

/-- Deletion `delete tbl[k]` in a JavaScript-object-like table. -/
def delTbl {α : Type} : List (String × α) → String → List (String × α)
  | [], _ => []
  | p :: r, k => if p.1 = k then delTbl r k else p :: delTbl r k

/-- Fresh `SSHClient` instance state as the constructor initialises it
(empty listener table, zero counters, both streams inactive). -/
def mkClient (key : String) : ClientState :=
  { key := key
    listeners := []
    emitter := []
    nextHandle := 0
    uploadCount := 0
    downloadCount := 0
    shellActive := false
    sftpActive := false }

/-- Method `registerNativeListener(eventName)`: unconditionally calls
`addListener` on the platform emitter (a fresh subscription handle is created
and appended) and stores the handle in `this._listeners[eventName]`,
overwriting any previous slot value. -/
def registerNativeListener (ev : String) (s : ClientState) : ClientState :=
  { s with
    emitter := s.emitter ++ [(s.nextHandle, ev)]
    listeners := setTbl s.listeners ev s.nextHandle
    nextHandle := s.nextHandle + 1 }

/-- Method `unregisterNativeListener(eventName)`: if the table holds a
subscription handle for the event, call `remove()` on it (dropping it from the
emitter) and delete the table slot; otherwise do nothing. -/
def unregisterNativeListener (ev : String) (s : ClientState) : ClientState :=
  match lookupTbl s.listeners ev with
  | none => s
  | some h =>
      { s with
        emitter := s.emitter.filter (fun p => p.1 != h)
        listeners := delTbl s.listeners ev }

/-- Method `startShell(ptyType)`: if `this._activeStream.shell` is set, resolve
immediately with the empty string and make no native call.  Otherwise register
the `Shell` native listener, call `RNSSHClient.startShell`, and in the callback
reject on error (leaving the shell flag unset) or set the shell flag and
resolve with the response.  `res` is the (error, response) pair the native
layer passes to the callback. -/
def startShell (pty : PtyType) (res : Except String String) (s : ClientState) :
    ClientState × List ProtoCall × Except String String :=
  if s.shellActive then (s, [], Except.ok "")
  else
    let s1 := registerNativeListener "Shell" s
    match res with
    | Except.error e => (s1, [ProtoCall.startShell s.key pty], Except.error e)
    | Except.ok r =>
        ({ s1 with shellActive := true }, [ProtoCall.startShell s.key pty], Except.ok r)

/-- C1: for every client with the shell flag set, `startShell` is an
empty-string no-op issuing no protocol call and changing no state; and a
protocol-level shell open appears in the emitted call list only when the shell
flag was clear (state Closed). -/
theorem startShell_noop_when_active (pty : PtyType) (res : Except String String)
    (s : ClientState) :
    (s.shellActive = true → startShell pty res s = (s, [], Except.ok "")) ∧
    (∀ k p, ProtoCall.startShell k p ∈ (startShell pty res s).2.1 →
      s.shellActive = false) := by
  constructor
  · intro h
    simp [startShell, h]
  · intro k p hmem
    cases hs : s.shellActive with
    | false => rfl
    | true =>
        rw [startShell] at hmem
        simp [hs] at hmem

/-- Witness for C1: a client with an active shell, where the second
`startShell` returns the empty string and issues no protocol call. -/
theorem startShell_noop_when_active_witness :
    ({ mkClient "a" with shellActive := true }.shellActive = true) ∧
    startShell PtyType.vanilla (Except.ok "banner")
        { mkClient "a" with shellActive := true }
      = ({ mkClient "a" with shellActive := true }, [], Except.ok "") :=
  ⟨rfl, (startShell_noop_when_active PtyType.vanilla (Except.ok "banner")
      { mkClient "a" with shellActive := true }).1 rfl⟩

/-- Lookup after a table assignment to the same key yields the assigned value. -/
theorem lookupTbl_setTbl_self {α : Type} (t : List (String × α)) (k : String) (v : α) :
    lookupTbl (setTbl t k v) k = some v := by
  induction t with
  | nil => simp [setTbl, lookupTbl]
  | cons p r ih =>
      by_cases hk : p.1 = k
      · simp [setTbl, hk, lookupTbl]
      · simp [setTbl, hk, lookupTbl, ih]

/-- Lookup after deleting a key yields nothing for that key. -/
theorem lookupTbl_delTbl_self {α : Type} (t : List (String × α)) (k : String) :
    lookupTbl (delTbl t k) k = none := by
  induction t with
  | nil => simp [delTbl, lookupTbl]
  | cons p r ih =>
      by_cases hk : p.1 = k
      · simp [delTbl, hk, ih]
      · simp [delTbl, hk, lookupTbl, ih]

/-- Deleting one key leaves lookups of a different key unchanged. -/
theorem lookupTbl_delTbl_ne {α : Type} (t : List (String × α)) (k k' : String)
    (h : k' ≠ k) : lookupTbl (delTbl t k) k' = lookupTbl t k' := by
  induction t with
  | nil => simp [delTbl]
  | cons p r ih =>
      by_cases hk : p.1 = k
      · have hne : p.1 ≠ k' := by
          intro hc
          exact h (hc ▸ hk)
        simp [delTbl, hk, lookupTbl, hne, ih, Ne.symm h]
      · simp [delTbl, hk, lookupTbl, ih]

/-- Method `connectSFTP()`: if `this._activeStream.sftp` is set, resolve
immediately with no native call.  Otherwise call `RNSSHClient.connectSFTP`; in
the callback the source first sets `this._activeStream.sftp = true` and
registers the two transfer-progress native listeners, and only then inspects
the error, rejecting if it is present.  `res` is the error value (if any) the
native layer passes to the callback; the final component is the settled
outcome of the returned promise (`some e` = rejected with `e`). -/
def connectSFTP (res : Option String) (s : ClientState) :
    ClientState × List ProtoCall × Option String :=
  if s.sftpActive then (s, [], none)
  else
    let s1 := { s with sftpActive := true }
    let s2 := registerNativeListener "DownloadProgress" s1
    let s3 := registerNativeListener "UploadProgress" s2
    (s3, [ProtoCall.connectSFTP s.key], res)

/-- C2 (code bug): on a fresh client, a `connectSFTP` whose native callback
reports the error "boom" leaves the promise rejected with that error and yet
`sftpActive = true`, with both transfer-progress listeners registered: the
source flips the flag and subscribes before checking the error, unlike
`startShell`, which checks the error first.  The spec's invariant (flag true
only after a successful acknowledgment) is violated by this code path. -/
theorem connectSFTP_error_sets_active :
    (connectSFTP (some "boom") (mkClient "a")).2.2 = some "boom" ∧
    (connectSFTP (some "boom") (mkClient "a")).1.sftpActive = true ∧
    lookupTbl (connectSFTP (some "boom") (mkClient "a")).1.listeners
      "DownloadProgress" = some 0 ∧
    lookupTbl (connectSFTP (some "boom") (mkClient "a")).1.listeners
      "UploadProgress" = some 1 := by
  refine ⟨rfl, rfl, ?_, ?_⟩ <;> decide

/-- C3 counterexample: registering the `Shell` native listener twice in a row
on a fresh client leaves TWO live subscriptions for the event name `Shell` at
the platform emitter — the first is never torn down, only its table slot is
overwritten — refuting the claimed at-most-one-active-subscription invariant
and the claimed teardown-before-register behaviour. -/
theorem register_duplicate_subscription :
    ((registerNativeListener "Shell"
        (registerNativeListener "Shell" (mkClient "a"))).emitter.filter
      (fun p => p.2 == "Shell")).length = 2 := by
  decide

/-- C3 (amended): `registerNativeListener` unconditionally appends a fresh
subscription at the emitter and overwrites the table slot for the event name;
every previously live subscription (in particular one for the same event name)
remains live — nothing is torn down before registering. -/
theorem registerNativeListener_overwrites (ev : String) (s : ClientState) :
    (registerNativeListener ev s).emitter = s.emitter ++ [(s.nextHandle, ev)] ∧
    lookupTbl (registerNativeListener ev s).listeners ev = some s.nextHandle ∧
    (∀ h, (h, ev) ∈ s.emitter → (h, ev) ∈ (registerNativeListener ev s).emitter) := by
  refine ⟨rfl, lookupTbl_setTbl_self s.listeners ev s.nextHandle, ?_⟩
  intro h hmem
  simp [registerNativeListener]
  exact Or.inl hmem

/-- Witness for C3's amended theorem: on a client that already holds a live
`Shell` subscription (handle 0), re-registering keeps handle 0 live at the
emitter while the table now points at the new handle 1. -/
theorem registerNativeListener_overwrites_witness :
    ((0, "Shell") ∈ (registerNativeListener "Shell" (mkClient "a")).emitter) ∧
    (0, "Shell") ∈ (registerNativeListener "Shell"
      (registerNativeListener "Shell" (mkClient "a"))).emitter :=
  ⟨by decide,
    (registerNativeListener_overwrites "Shell"
      (registerNativeListener "Shell" (mkClient "a"))).2.2 0 (by decide)⟩

/-- Increment `++this._counters.upload` performed by `sftpUpload` (and its
`WithCustomName`/`Base64` variants) immediately before the native call. -/
def beginUpload (s : ClientState) : ClientState :=
  { s with uploadCount := s.uploadCount + 1 }

/-- Decrement `--this._counters.upload` performed unconditionally at the top of
the upload completion callback, before the error is inspected. -/
def endUpload (s : ClientState) : ClientState :=
  { s with uploadCount := s.uploadCount - 1 }

/-- Increment `++this._counters.download` performed by `sftpDownload`
immediately before the native call. -/
def beginDownload (s : ClientState) : ClientState :=
  { s with downloadCount := s.downloadCount + 1 }

/-- Decrement `--this._counters.download` performed unconditionally at the top
of the download completion callback, before the error is inspected. -/
def endDownload (s : ClientState) : ClientState :=
  { s with downloadCount := s.downloadCount - 1 }

/-- Counter-touching events of an interleaving of concurrent transfers: a
transfer issue (`beginUp`/`beginDown`) or a completion callback firing
(`endUp`/`endDown`), the latter regardless of success or failure. -/
inductive XferEvent where
  | beginUp
  | endUp
  | beginDown
  | endDown
deriving DecidableEq

/-- Effect of one transfer event on the client state, as the source performs it. -/
def applyXfer (s : ClientState) : XferEvent → ClientState
  | XferEvent.beginUp => beginUpload s
  | XferEvent.endUp => endUpload s
  | XferEvent.beginDown => beginDownload s
  | XferEvent.endDown => endDownload s

/-- Run an interleaving of transfer events left to right. -/
def runXfers (s : ClientState) (l : List XferEvent) : ClientState :=
  l.foldl applyXfer s

/-- Number of occurrences of one event in an interleaving. -/
def cnt (e : XferEvent) : List XferEvent → Nat
  | [] => 0
  | x :: r => (if x = e then 1 else 0) + cnt e r

/-- An interleaving is well formed (each completion callback corresponds to a
previously issued transfer of the same direction and fires once) when,
simulating from `u` uploads and `d` downloads in flight, every `endUp`/`endDown`
finds its counter positive. -/
def wellFormed : Nat → Nat → List XferEvent → Bool
  | _, _, [] => true
  | u, d, XferEvent.beginUp :: r => wellFormed (u + 1) d r
  | u, d, XferEvent.endUp :: r => decide (0 < u) && wellFormed (u - 1) d r
  | u, d, XferEvent.beginDown :: r => wellFormed u (d + 1) r
  | u, d, XferEvent.endDown :: r => decide (0 < d) && wellFormed u (d - 1) r

/-- Counter balance: after running an interleaving, each counter moved by the
number of begins minus the number of ends of its direction. -/
theorem runXfers_counts (l : List XferEvent) : ∀ s : ClientState,
    (runXfers s l).uploadCount
        = s.uploadCount + (cnt XferEvent.beginUp l : Int) - cnt XferEvent.endUp l
    ∧ (runXfers s l).downloadCount
        = s.downloadCount + (cnt XferEvent.beginDown l : Int) - cnt XferEvent.endDown l := by
  induction l with
  | nil => intro s; simp [runXfers, cnt]
  | cons x r ih =>
      intro s
      have h := ih (applyXfer s x)
      cases x <;>
        simp [runXfers, cnt, applyXfer, beginUpload, endUpload, beginDownload,
          endDownload] at h ⊢ <;>
        omega

/-- Well-formedness bounds the completion counts of every prefix by the begin
counts plus the starting in-flight numbers. -/
theorem wellFormed_take (l : List XferEvent) : ∀ u d n, wellFormed u d l = true →
    cnt XferEvent.endUp (l.take n) ≤ u + cnt XferEvent.beginUp (l.take n)
    ∧ cnt XferEvent.endDown (l.take n) ≤ d + cnt XferEvent.beginDown (l.take n) := by
  induction l with
  | nil => intro u d n _; simp [cnt]
  | cons x r ih =>
      intro u d n hwf
      cases n with
      | zero => simp [cnt]
      | succ m =>
          cases x with
          | beginUp =>
              have h := ih (u + 1) d m (by simpa [wellFormed] using hwf)
              simp [cnt]
              omega
          | endUp =>
              rw [wellFormed, Bool.and_eq_true, decide_eq_true_eq] at hwf
              have h := ih (u - 1) d m hwf.2
              have h0 := hwf.1
              simp [cnt]
              omega
          | beginDown =>
              have h := ih u (d + 1) m (by simpa [wellFormed] using hwf)
              simp [cnt]
              omega
          | endDown =>
              rw [wellFormed, Bool.and_eq_true, decide_eq_true_eq] at hwf
              have h := ih u (d - 1) m hwf.2
              have h0 := hwf.1
              simp [cnt]
              omega

/-- C4 counterexample: the decrement in the completion callback is a plain
`--`, not clamped at zero: an unmatched completion event drives the upload
counter of a fresh client to `-1`, refuting the claimed clamping. -/
theorem endUp_negative_counter :
    (runXfers (mkClient "a") [XferEvent.endUp]).uploadCount = -1 := by
  decide

/-- C4 (amended): for every interleaving in which each completion corresponds
to a previously issued transfer (the native layer fires each callback exactly
once), both counters stay nonnegative at every prefix, and a counter is back
to zero once every completion of its direction has fired. -/
theorem counters_nonneg_and_zero (k : String) (tr : List XferEvent)
    (hwf : wellFormed 0 0 tr = true) :
    (∀ n, 0 ≤ (runXfers (mkClient k) (tr.take n)).uploadCount
      ∧ 0 ≤ (runXfers (mkClient k) (tr.take n)).downloadCount)
    ∧ (cnt XferEvent.endUp tr = cnt XferEvent.beginUp tr →
        (runXfers (mkClient k) tr).uploadCount = 0)
    ∧ (cnt XferEvent.endDown tr = cnt XferEvent.beginDown tr →
        (runXfers (mkClient k) tr).downloadCount = 0) := by
  have hu : (mkClient k).uploadCount = 0 := rfl
  have hd : (mkClient k).downloadCount = 0 := rfl
  refine ⟨?_, ?_, ?_⟩
  · intro n
    have hb := runXfers_counts (tr.take n) (mkClient k)
    have ht := wellFormed_take tr 0 0 n hwf
    omega
  · intro he
    have hb := runXfers_counts tr (mkClient k)
    omega
  · intro he
    have hb := runXfers_counts tr (mkClient k)
    omega

/-- Concrete interleaving of three transfers (two uploads, one download) used
to witness the counter invariant. -/
def xfersC4 : List XferEvent :=
  [XferEvent.beginUp, XferEvent.beginDown, XferEvent.beginUp,
    XferEvent.endUp, XferEvent.endUp, XferEvent.endDown]

/-- Witness for C4's amended theorem on a concrete three-transfer interleaving. -/
theorem counters_nonneg_and_zero_witness :
    wellFormed 0 0 xfersC4 = true
    ∧ 0 ≤ (runXfers (mkClient "a") (xfersC4.take 3)).uploadCount
    ∧ (runXfers (mkClient "a") xfersC4).uploadCount = 0
    ∧ (runXfers (mkClient "a") xfersC4).downloadCount = 0 :=
  ⟨by decide,
    ((counters_nonneg_and_zero "a" xfersC4 (by decide)).1 3).1,
    (counters_nonneg_and_zero "a" xfersC4 (by decide)).2.1 (by decide),
    (counters_nonneg_and_zero "a" xfersC4 (by decide)).2.2 (by decide)⟩

/-- Method `sftpCancelUpload()`: forwards `RNSSHClient.sftpCancelUpload` only
when `this._counters.upload > 0`; otherwise does nothing. -/
def sftpCancelUpload (s : ClientState) : ClientState × List ProtoCall :=
  if 0 < s.uploadCount then (s, [ProtoCall.sftpCancelUpload s.key]) else (s, [])

/-- Method `sftpCancelDownload()`: forwards `RNSSHClient.sftpCancelDownload`
only when `this._counters.download > 0`; otherwise does nothing. -/
def sftpCancelDownload (s : ClientState) : ClientState × List ProtoCall :=
  if 0 < s.downloadCount then (s, [ProtoCall.sftpCancelDownload s.key]) else (s, [])

/-- C5: each cancel method never changes client state or raises, forwards the
protocol-level cancellation exactly when the matching counter is positive, and
is a silent no-op (no call at all) when it is not. -/
theorem cancel_forwards_iff_inflight (s : ClientState) :
    ((sftpCancelUpload s).1 = s)
    ∧ ((sftpCancelUpload s).2 = [ProtoCall.sftpCancelUpload s.key] ↔ 0 < s.uploadCount)
    ∧ (¬ 0 < s.uploadCount → (sftpCancelUpload s).2 = [])
    ∧ ((sftpCancelDownload s).1 = s)
    ∧ ((sftpCancelDownload s).2 = [ProtoCall.sftpCancelDownload s.key] ↔ 0 < s.downloadCount)
    ∧ (¬ 0 < s.downloadCount → (sftpCancelDownload s).2 = []) := by
  by_cases hu : 0 < s.uploadCount <;> by_cases hd : 0 < s.downloadCount <;>
    simp [sftpCancelUpload, sftpCancelDownload, hu, hd]

/-- Witness for C5: on a fresh client (both counters zero) neither cancel
forwards anything. -/
theorem cancel_forwards_iff_inflight_witness :
    (¬ 0 < (mkClient "a").uploadCount) ∧ (sftpCancelUpload (mkClient "a")).2 = []
    ∧ (sftpCancelDownload (mkClient "a")).2 = [] :=
  ⟨by decide,
    (cancel_forwards_iff_inflight (mkClient "a")).2.2.1 (by decide),
    (cancel_forwards_iff_inflight (mkClient "a")).2.2.2.2.2 (by decide)⟩

/-- Client key is untouched by listener unregistration. -/
@[simp] theorem unregister_key (ev : String) (s : ClientState) :
    (unregisterNativeListener ev s).key = s.key := by
  cases h : lookupTbl s.listeners ev <;> simp [unregisterNativeListener, h]

/-- Shell-active flag is untouched by listener unregistration. -/
@[simp] theorem unregister_shellActive (ev : String) (s : ClientState) :
    (unregisterNativeListener ev s).shellActive = s.shellActive := by
  cases h : lookupTbl s.listeners ev <;> simp [unregisterNativeListener, h]

/-- SFTP-active flag is untouched by listener unregistration. -/
@[simp] theorem unregister_sftpActive (ev : String) (s : ClientState) :
    (unregisterNativeListener ev s).sftpActive = s.sftpActive := by
  cases h : lookupTbl s.listeners ev <;> simp [unregisterNativeListener, h]

/-- After unregistering an event, its table slot is empty (whether or not it
was present). -/
theorem lookup_unregister_self (ev : String) (s : ClientState) :
    lookupTbl (unregisterNativeListener ev s).listeners ev = none := by
  cases h : lookupTbl s.listeners ev with
  | none => simp [unregisterNativeListener, h]
  | some v => simp [unregisterNativeListener, h, lookupTbl_delTbl_self]

/-- Unregistering one event leaves the table slot of a different event
unchanged. -/
theorem lookup_unregister_ne (ev k : String) (s : ClientState) (h : k ≠ ev) :
    lookupTbl (unregisterNativeListener ev s).listeners k
      = lookupTbl s.listeners k := by
  cases hl : lookupTbl s.listeners ev with
  | none => simp [unregisterNativeListener, hl]
  | some v => simp [unregisterNativeListener, hl, lookupTbl_delTbl_ne _ _ _ h]

/-- Method `closeShell()`: unregister the `Shell` native listener, call
`RNSSHClient.closeShell`, and clear the shell flag (unconditionally). -/
def closeShell (s : ClientState) : ClientState × List ProtoCall :=
  let s1 := unregisterNativeListener "Shell" s
  ({ s1 with shellActive := false }, [ProtoCall.closeShell s.key])

/-- Method `disconnectSFTP()`: the whole body is guarded by
`Platform.OS !== 'ios'` — on iOS it does nothing at all.  Elsewhere it
unregisters the two transfer-progress listeners, calls
`RNSSHClient.disconnectSFTP`, and clears the SFTP flag. -/
def disconnectSFTP (p : Platform) (s : ClientState) : ClientState × List ProtoCall :=
  if p = Platform.ios then (s, [])
  else
    let s1 := unregisterNativeListener "DownloadProgress" s
    let s2 := unregisterNativeListener "UploadProgress" s1
    ({ s2 with sftpActive := false }, [ProtoCall.disconnectSFTP s.key])

/-- Method `disconnect()`: close the shell if its flag is set, then disconnect
SFTP if its flag is set, then always call `RNSSHClient.disconnect`. -/
def disconnect (p : Platform) (s : ClientState) : ClientState × List ProtoCall :=
  let r1 := if s.shellActive then closeShell s else (s, [])
  let r2 := if r1.1.sftpActive then disconnectSFTP p r1.1 else (r1.1, [])
  (r2.1, r1.2 ++ r2.2 ++ [ProtoCall.disconnect s.key])

/-- C6 counterexample: on iOS, a client with both shell and SFTP active gets
shell teardown and the transport disconnect, but no protocol-level SFTP
disconnect at all (`disconnectSFTP` is a no-op on iOS), refuting the claim that
the SFTP channel is disconnected whenever `sftpActive` is true. -/
theorem disconnect_ios_skips_sftp :
    ({ mkClient "k6" with shellActive := true, sftpActive := true } : ClientState).sftpActive = true
    ∧ (disconnect Platform.ios
        { mkClient "k6" with shellActive := true, sftpActive := true }).2
      = [ProtoCall.closeShell "k6", ProtoCall.disconnect "k6"]
    ∧ ProtoCall.disconnectSFTP "k6" ∉ (disconnect Platform.ios
        { mkClient "k6" with shellActive := true, sftpActive := true }).2 := by
  refine ⟨rfl, ?_, ?_⟩ <;> decide

/-- C6 (amended): the calls emitted by `disconnect` are exactly: the shell
close (when the shell flag is set), then the SFTP disconnect (when the SFTP
flag is set AND the platform is not iOS — on iOS the SFTP teardown is
skipped), then always the transport-level disconnect, which is unconditional
and last. -/
theorem disconnect_call_order (p : Platform) (s : ClientState) :
    (disconnect p s).2
      = (if s.shellActive then [ProtoCall.closeShell s.key] else [])
        ++ (if s.sftpActive = true ∧ p ≠ Platform.ios
            then [ProtoCall.disconnectSFTP s.key] else [])
        ++ [ProtoCall.disconnect s.key]
    ∧ ((disconnect p s).2).getLast? = some (ProtoCall.disconnect s.key) := by
  cases p <;> cases hs : s.shellActive <;> cases hf : s.sftpActive <;>
    simp [disconnect, closeShell, disconnectSFTP, hs, hf]

/-- C7 counterexample: a client that has successfully connected SFTP
(`sftpActive = true`, both progress listeners registered), on iOS: calling
`disconnectSFTP` changes nothing — no unsubscription, no protocol-level SFTP
disconnect, and the SFTP flag stays true. -/
theorem disconnectSFTP_ios_noop :
    ((connectSFTP none (mkClient "k7")).1.sftpActive = true)
    ∧ disconnectSFTP Platform.ios (connectSFTP none (mkClient "k7")).1
      = ((connectSFTP none (mkClient "k7")).1, [])
    ∧ lookupTbl (disconnectSFTP Platform.ios
        (connectSFTP none (mkClient "k7")).1).1.listeners "DownloadProgress"
      = some 0 := by
  refine ⟨?_, rfl, ?_⟩ <;> decide

/-- C7 (amended): on every non-iOS platform, `disconnectSFTP` leaves both
transfer-progress table slots empty, issues exactly the protocol-level SFTP
disconnect, and clears the SFTP flag; on iOS it is a complete no-op. -/
theorem disconnectSFTP_behavior (s : ClientState) :
    (lookupTbl (disconnectSFTP Platform.android s).1.listeners "DownloadProgress" = none
    ∧ lookupTbl (disconnectSFTP Platform.android s).1.listeners "UploadProgress" = none
    ∧ (disconnectSFTP Platform.android s).1.sftpActive = false
    ∧ (disconnectSFTP Platform.android s).2 = [ProtoCall.disconnectSFTP s.key])
    ∧ disconnectSFTP Platform.ios s = (s, []) := by
  refine ⟨⟨?_, ?_, rfl, rfl⟩, rfl⟩
  · rw [show (disconnectSFTP Platform.android s).1.listeners
        = (unregisterNativeListener "UploadProgress"
            (unregisterNativeListener "DownloadProgress" s)).listeners from rfl]
    rw [lookup_unregister_ne _ _ _ (by decide)]
    exact lookup_unregister_self _ _
  · exact lookup_unregister_self _ _

/-- Strip of control characters performed by `sftpLs` on each raw entry before
decoding (`p.replace()` with the character class U+0000 to U+001F and an empty
replacement): exactly the characters with code point at least `0x20` are kept,
in order. -/
def stripControl (s : String) : String :=
  String.mk (s.data.filter (fun c => decide (0x20 <= c.toNat)))

/-- Settled outcome of one `sftpLs` call: the promise resolved (with the
decoded entries, or `none` when the native layer passed no array), the promise
rejected with a protocol error, or (`exn`) a decode failure was thrown inside
the native completion callback — the exception escapes to the bridge, neither
`resolve` nor `reject` runs, and the promise never settles. -/
inductive LsOutcome (E : Type) where
  | resolved (entries : Option (List E))
  | rejected (err : String)
  | exn
deriving DecidableEq

/-- Decoding loop over the raw entries (the source maps `JSON.parse` over each
control-stripped entry): `parse` stands for `JSON.parse` into the structured
entry type `E`; the first entry it rejects aborts the whole loop with a thrown
exception, modelled as `none`. -/
def parseEntries {E : Type} (parse : String → Option E) : List String → Option (List E)
  | [] => some []
  | p :: r =>
      match parse (stripControl p) with
      | none => none
      | some e =>
          match parseEntries parse r with
          | none => none
          | some es => some (e :: es)

/-- Method `sftpLs(path)`: behaviour of the native completion callback on the
native result `(error, _response)`.  The source decodes the raw entries (when
an array was passed) BEFORE invoking the user callback or inspecting the
error, so a decode failure throws out of the callback (`LsOutcome.exn`);
otherwise a present error rejects, and else the decoded entries resolve. -/
def sftpLs {E : Type} (parse : String → Option E) (error : Option String)
    (resp : Option (List String)) : LsOutcome E :=
  match resp with
  | none =>
      match error with
      | some e => LsOutcome.rejected e
      | none => LsOutcome.resolved none
  | some ps =>
      match parseEntries parse ps with
      | none => LsOutcome.exn
      | some es =>
          match error with
          | some e => LsOutcome.rejected e
          | none => LsOutcome.resolved (some es)

/-- Decoding aborts whenever some raw entry fails to parse after stripping. -/
theorem parseEntries_none {E : Type} (parse : String → Option E) :
    ∀ ps : List String, (∃ p ∈ ps, parse (stripControl p) = none) →
      parseEntries parse ps = none := by
  intro ps
  induction ps with
  | nil =>
      rintro ⟨p, hp, _⟩
      cases hp
  | cons q r ih =>
      rintro ⟨p, hp, hnone⟩
      rcases List.mem_cons.mp hp with h | h
      · have hq : parse (stripControl q) = none := h ▸ hnone
        simp [parseEntries, hq]
      · cases hq : parse (stripControl q) <;>
          simp [parseEntries, hq, ih ⟨p, h, hnone⟩]

/-- Successful decoding returns exactly one structured entry per raw entry. -/
theorem parseEntries_length {E : Type} (parse : String → Option E) :
    ∀ (ps : List String) (es : List E), parseEntries parse ps = some es →
      es.length = ps.length := by
  intro ps
  induction ps with
  | nil =>
      intro es h
      rw [parseEntries] at h
      cases h
      rfl
  | cons q r ih =>
      intro es h
      rw [parseEntries] at h
      cases hq : parse (stripControl q) with
      | none => rw [hq] at h; cases h
      | some e =>
          rw [hq] at h
          cases hr : parseEntries parse r with
          | none => rw [hr] at h; cases h
          | some es' =>
              rw [hr] at h
              cases h
              simp [ih es' hr]

/-- Concrete decoder that rejects every raw entry (used to exhibit the decode
failure path of `sftpLs`). -/
def parseFail : String → Option Nat := fun _ => none

/-- Concrete decoder that rejects exactly the raw entry `"bad"` and decodes any
other entry to its length. -/
def parseLen : String → Option Nat :=
  fun p => if p = "bad" then none else some p.length

/-- C8 counterexample: with a malformed raw entry (and no protocol error), the
decode failure is thrown inside the native callback, so `sftpLs` ends in
`LsOutcome.exn`: the promise is NOT rejected with an operation error (and not
resolved either) — the claim that the operation "fails as an operation error"
does not hold of the code. -/
theorem sftpLs_decode_failure_escapes :
    sftpLs parseFail none (some ["entry"]) = LsOutcome.exn := by
  rfl

/-- C8 (amended): every character surviving the strip has code point at least
`0x20` (all of U+0000 through U+001F are removed before decoding); if any raw
entry fails to decode after stripping, the call ends in the escaped-exception
outcome (never a resolution, in particular never a partial list, but also not
a promise rejection); and a resolved outcome carries exactly one decoded entry
per raw entry. -/
theorem sftpLs_strict_decode {E : Type} (parse : String → Option E)
    (error : Option String) (ps : List String) (s0 : String) :
    (∀ c ∈ (stripControl s0).data, 0x20 <= c.toNat)
    ∧ ((∃ p ∈ ps, parse (stripControl p) = none) →
        sftpLs parse error (some ps) = LsOutcome.exn)
    ∧ (∀ es, sftpLs parse error (some ps) = LsOutcome.resolved (some es) →
        parseEntries parse ps = some es ∧ es.length = ps.length) := by
  refine ⟨?_, ?_, ?_⟩
  · intro c hc
    have := List.mem_filter.mp hc
    exact of_decide_eq_true this.2
  · intro hex
    simp [sftpLs, parseEntries_none parse ps hex]
  · intro es h
    rw [sftpLs] at h
    cases hp : parseEntries parse ps with
    | none => rw [hp] at h; cases h
    | some es' =>
        rw [hp] at h
        cases error with
        | some e => cases h
        | none =>
            cases h
            exact ⟨rfl, parseEntries_length parse ps es hp⟩

/-- Witness for C8's amended theorem: the raw list `["ok", "bad"]` under
`parseLen` has a failing entry, and the call ends in the escaped-exception
outcome; the strip of the literal containing U+0001 keeps only printable
characters. -/
theorem sftpLs_strict_decode_witness :
    (∃ p ∈ ["ok", "bad"], parseLen (stripControl p) = none)
    ∧ sftpLs parseLen none (some ["ok", "bad"]) = LsOutcome.exn
    ∧ (∀ c ∈ (stripControl "a\x01b").data, 0x20 <= c.toNat) :=
  ⟨by decide,
    (sftpLs_strict_decode parseLen none ["ok", "bad"] "a\x01b").2.1
      (by decide),
    (sftpLs_strict_decode parseLen none ["ok", "bad"] "a\x01b").1⟩

/-- Incoming native event as the source's `handleEvent` sees it:
`{name, key, value}`, where `key` identifies the client the native layer meant
the event for. -/
structure NativeEvent (V : Type) where
  name : String
  key : String
  value : V

/-- Method `handleEvent(event)`: invoke `this._handlers[event.name]` on
`event.value` only when such a handler exists AND `this._key === event.key`;
otherwise fall through silently.  Returns the invocation performed (handler
and argument), or `none` when the event is dropped with no effect. -/
def handleEvent {H V : Type} (handlers : List (String × H)) (selfKey : String)
    (ev : NativeEvent V) : Option (H × V) :=
  match lookupTbl handlers ev.name with
  | some h => if selfKey = ev.key then some (h, ev.value) else none
  | none => none

/-- C9: an event whose key differs from the client's own key, or whose name
has no registered handler, is dropped with no effect (identical to receiving
no event, and no exception is raised — the function is total and returns
`none`); when the name is registered and the key matches, exactly the
registered handler is invoked on the event's value. -/
theorem handleEvent_filters {H V : Type} (handlers : List (String × H))
    (selfKey : String) (ev : NativeEvent V) :
    (selfKey ≠ ev.key → handleEvent handlers selfKey ev = none)
    ∧ (lookupTbl handlers ev.name = none → handleEvent handlers selfKey ev = none)
    ∧ (∀ h, lookupTbl handlers ev.name = some h → selfKey = ev.key →
        handleEvent handlers selfKey ev = some (h, ev.value)) := by
  refine ⟨?_, ?_, ?_⟩
  · intro hne
    rw [handleEvent]
    cases lookupTbl handlers ev.name <;> simp [hne]
  · intro hn
    simp [handleEvent, hn]
  · intro h hl hk
    simp [handleEvent, hl, hk]

/-- Witness for C9: with only a `Shell` handler registered on client key `a`,
an event carrying key `b` is dropped, and the same event carrying key `a`
invokes the registered handler on the event's value. -/
theorem handleEvent_filters_witness :
    (("a" : String) ≠ "b")
    ∧ handleEvent [("Shell", "h1")] "a" (NativeEvent.mk "Shell" "b" (7 : Nat)) = none
    ∧ handleEvent [("Shell", "h1")] "a" (NativeEvent.mk "Shell" "a" (7 : Nat))
        = some ("h1", 7) :=
  ⟨by decide,
    (handleEvent_filters [("Shell", "h1")] "a"
      (NativeEvent.mk "Shell" "b" (7 : Nat))).1 (by decide),
    (handleEvent_filters [("Shell", "h1")] "a"
      (NativeEvent.mk "Shell" "a" (7 : Nat))).2.2 "h1" (by decide) rfl⟩

/-- C10: when the shell is closed and the protocol-level shell open fails, the
promise rejects with the native error, the shell flag stays clear, and the
`Shell` native listener registered before the protocol call is still present:
its table slot holds the fresh handle and the subscription is still live at
the emitter — the failure path never unregisters it. -/
theorem startShell_failure_listener_retained (pty : PtyType) (e : String)
    (s : ClientState) (h : s.shellActive = false) :
    (startShell pty (Except.error e) s).2.2 = Except.error e
    ∧ (startShell pty (Except.error e) s).1.shellActive = false
    ∧ lookupTbl (startShell pty (Except.error e) s).1.listeners "Shell"
        = some s.nextHandle
    ∧ (s.nextHandle, "Shell") ∈ (startShell pty (Except.error e) s).1.emitter := by
  rw [startShell]
  simp [h, registerNativeListener, lookupTbl_setTbl_self]

/-- Witness for C10: a fresh client whose protocol-level shell open fails with
"refused" keeps the `Shell` listener (handle 0) registered and live. -/
theorem startShell_failure_listener_retained_witness :
    ((mkClient "a").shellActive = false)
    ∧ (startShell PtyType.xterm (Except.error "refused") (mkClient "a")).2.2
        = Except.error "refused"
    ∧ lookupTbl (startShell PtyType.xterm (Except.error "refused")
        (mkClient "a")).1.listeners "Shell" = some (mkClient "a").nextHandle
    ∧ (0, "Shell") ∈ (startShell PtyType.xterm (Except.error "refused")
        (mkClient "a")).1.emitter :=
  ⟨rfl,
    (startShell_failure_listener_retained PtyType.xterm "refused" (mkClient "a") rfl).1,
    (startShell_failure_listener_retained PtyType.xterm "refused" (mkClient "a") rfl).2.2.1,
    (startShell_failure_listener_retained PtyType.xterm "refused" (mkClient "a") rfl).2.2.2⟩
